import Mathlib

/-!
Shallow embedding of `src/jupyter/py_src/bq_guard.py`: a free-tier quota guard
around a BigQuery client.  The external client is modelled as a record of
oracles, one per call site of `client.query` / `client.list_datasets` /
`client.get_dataset` (each metadata query's SQL is a deterministic function of
the loop's region, so an oracle keyed by the region string is a faithful model
of that call site).  Python exceptions are modelled by an explicit
`Except PyExn` result; Python float arithmetic in error-message payloads is
modelled by exact rational arithmetic; str.strip/str.upper/str.startswith are
modelled by the character-list functions `pyStrip`/`pyUpper`/`pyStartsWith`,
which agree with Python on the ASCII inputs at issue here.
-/

/-- Structured content of the two `RuntimeError` messages raised by
`check_free_tier_allowance` (quantities in the units the message interpolates:
TB for query figures, GB for storage figures), plus `external` for a
`RuntimeError` originating in the underlying client library. -/
inductive GuardMsg where
  | queryQuota (usedTB plannedTB remainTB : ℚ)
  | storageQuota (usedGB limitGB : ℚ)
  | external (text : String)
deriving DecidableEq, Repr

/-- The Python exception universe as seen by this module: `RuntimeError`
(the only type `safe_query` catches) versus every other exception type. -/
inductive PyExn where
  | runtimeError (msg : GuardMsg)
  | other (name : String)
deriving DecidableEq, Repr

/-- The dict returned by `check_free_tier_allowance` on success. -/
structure Snapshot where
  used_query_bytes : Int
  planned_query_bytes : Int
  query_limit_bytes : Int
  used_storage_bytes : Int
  storage_limit_bytes : Int
deriving DecidableEq, Repr

/-- Stand-in for a `bigquery.job.QueryJob` object returned by the real query. -/
structure Job where
  jobId : Nat
deriving DecidableEq, Repr

/-- Stand-in for the `pandas.DataFrame` produced by `job.result().to_dataframe()`. -/
structure DataFrame where
  frameId : Nat
deriving DecidableEq, Repr

/-- What `safe_query` returns when the query is allowed to run:
a DataFrame when `to_dataframe` is set, otherwise the job object. -/
inductive SafeResult where
  | frame (df : DataFrame)
  | job (j : Job)
deriving DecidableEq, Repr

/-- Result of `client.get_dataset(ds.reference)`: the dataset's location
(`None` possible in Python, hence `Option`) and the outcome of the per-dataset
`INFORMATION_SCHEMA.TABLE_STORAGE` query issued for it. -/
structure DatasetRef where
  location : Option String
  tableStorageBytes : Except PyExn Int
deriving Repr

/-- One entry of `client.list_datasets(project=...)`; fetching its full
metadata (`client.get_dataset`) may itself raise. -/
structure DatasetListing where
  getDataset : Except PyExn DatasetRef
deriving Repr

/-- Oracle model of the `bigquery.Client` handle.  Each field models one call
site in `bq_guard.py`:
`jobsBilled region` is the `INFORMATION_SCHEMA.JOBS_BY_PROJECT` bytes-billed
sum for that region (the SQL and location are functions of the region);
`storageByProject region project` is the fast-path
`TABLE_STORAGE_BY_PROJECT` sum; `listDatasets project` the dataset listing;
`dryRunEstimate sql location` the dry-run `total_bytes_processed`;
`realQuery sql location` the real (non-dry-run) query submission and
`jobResultDf job timeout` the `job.result(timeout).to_dataframe()` step. -/
structure Client where
  project : String
  jobsBilled : String → Except PyExn Int
  storageByProject : String → String → Except PyExn Int
  listDatasets : String → Except PyExn (List DatasetListing)
  dryRunEstimate : String → Option String → Except PyExn Int
  realQuery : String → Option String → Except PyExn Job
  jobResultDf : Job → Option ℚ → Except PyExn DataFrame

/-- `QUERY_LIMIT_BYTES = 1 * 1024**4` — the 1 TB free-tier query ceiling. -/
def QUERY_LIMIT_BYTES : Int := 1 * 1024 ^ 4

/-- `STORAGE_LIMIT_BYTES = 10 * 1024**3` — the 10 GB free-tier storage ceiling. -/
def STORAGE_LIMIT_BYTES : Int := 10 * 1024 ^ 3

/-- `DEFAULT_REGIONS = ['region-eu', 'region-us']`. -/
def DEFAULT_REGIONS : List String := ["region-eu", "region-us"]

/-- Python truthiness of an `Optional[str]`: `None` and `""` are falsy. -/
def pyStrTruthy : Option String → Bool
  | none => false
  | some s => !s.data.isEmpty

/-- The `if not project_id: project_id = client.project` default. -/
def resolveProject (c : Client) (project_id : Option String) : String :=
  if pyStrTruthy project_id then project_id.getD "" else c.project

/-- ASCII model of the whitespace class of Python's `str.strip`. -/
def pyIsSpace (c : Char) : Bool :=
  c == ' ' || c == '\t' || c == '\n' || c == '\r' || c == '\x0b' || c == '\x0c'

/-- ASCII model of Python `str.strip()` (no argument): drop leading and
trailing whitespace. -/
def pyStrip (s : String) : String :=
  String.mk (((s.data.dropWhile pyIsSpace).reverse.dropWhile pyIsSpace).reverse)

/-- ASCII model of Python `str.upper()`. -/
def pyUpper (s : String) : String :=
  String.mk (s.data.map Char.toUpper)

/-- Python `s.startswith(p)` (case-sensitive, like the source). -/
def pyStartsWith (s p : String) : Bool :=
  s.data.take p.data.length == p.data

/-- The first `n` characters removed, as in slicing off a matched prefix. -/
def pyDropChars (s : String) (n : Nat) : String :=
  String.mk (s.data.drop n)

/-- `_region_to_location`: strip, map a bare `EU`/`US` (any case) to upper
case, strip a literal `region-` prefix and uppercase the rest, otherwise
uppercase the whole string.  Under the `startswith("region-")` guard, Python's
`region.split("-", 1)[1]` is exactly the string after the first 7 characters. -/
def _region_to_location (region : String) : String :=
  let r := pyStrip region
  if pyUpper r = "EU" ∨ pyUpper r = "US" then pyUpper r
  else if pyStartsWith r "region-" then pyUpper (pyDropChars r 7)
  else pyUpper r

/-- A `datetime.datetime` value (the UTC timezone is implicit: every value in
this module is timezone-aware UTC). -/
structure PyDateTime where
  year : Nat
  month : Nat
  day : Nat
  hour : Nat
  minute : Nat
  second : Nat
  microsecond : Nat
deriving DecidableEq, Repr

/-- Gregorian leap-year rule used by `datetime`'s calendar. -/
def isLeapYear (y : Nat) : Bool :=
  (y % 4 == 0 && y % 100 != 0) || y % 400 == 0

/-- Length of a Gregorian month. -/
def daysInMonth (y m : Nat) : Nat :=
  if m = 2 then if isLeapYear y then 29 else 28
  else if m = 4 ∨ m = 6 ∨ m = 9 ∨ m = 11 then 30
  else 31

/-- Advance a datetime by one calendar day (`timedelta(days=1)` on a valid date). -/
def addOneDay (d : PyDateTime) : PyDateTime :=
  if d.day < daysInMonth d.year d.month then { d with day := d.day + 1 }
  else if d.month < 12 then { d with month := d.month + 1, day := 1 }
  else { d with year := d.year + 1, month := 1, day := 1 }

/-- `dt + timedelta(days=n)` on a valid date. -/
def addDays : PyDateTime → Nat → PyDateTime
  | d, 0 => d
  | d, n + 1 => addDays (addOneDay d) n

/-- `_month_bounds_utc`, parameterised by the current instant `now`:
`start = now.replace(day=1, hour=0, minute=0, second=0, microsecond=0)`,
`end = (start.replace(day=28) + timedelta(days=4)).replace(day=1)`. -/
def _month_bounds_utc (now : PyDateTime) : PyDateTime × PyDateTime :=
  let start : PyDateTime :=
    { now with day := 1, hour := 0, minute := 0, second := 0, microsecond := 0 }
  let stop : PyDateTime := { addDays { start with day := 28 } 4 with day := 1 }
  (start, stop)

/-- Monotone linearisation of a (valid) datetime, used to compare instants. -/
def PyDateTime.key (d : PyDateTime) : Nat :=
  ((((d.year * 13 + d.month) * 32 + d.day) * 24 + d.hour) * 60 + d.minute) * 61000000
    + d.second * 1000000 + d.microsecond

/-- `_sum_query_bytes_billed`: per region, one `JOBS_BY_PROJECT` metadata
query (its failure propagates), results summed across regions. -/
def _sum_query_bytes_billed (c : Client) (regions : List String) :
    Except PyExn Int :=
  regions.foldlM (fun total region => (c.jobsBilled region).map (fun b => total + b)) 0

/-- Contribution of one listed dataset inside the storage fallback loop:
`get_dataset`, skip on location mismatch against the region's canonical
location, then the per-dataset `TABLE_STORAGE` query; any exception in the
loop body is swallowed (`except Exception: continue`), contributing 0. -/
def fallbackDatasetBytes (location : String) (ds : DatasetListing) : Int :=
  match ds.getDataset with
  | .error _ => 0
  | .ok ref =>
    if pyUpper (ref.location.getD "") = location then
      match ref.tableStorageBytes with
      | .ok b => b
      | .error _ => 0
    else 0

/-- One region's share of `_sum_storage_bytes`: try the
`TABLE_STORAGE_BY_PROJECT` fast path; on any exception from it, fall back to
enumerating the project's datasets and summing the matching ones. -/
def regionStorageBytes (c : Client) (project_id region : String) :
    Except PyExn Int :=
  let location := _region_to_location region
  match c.storageByProject region project_id with
  | .ok b => .ok b
  | .error _ =>
    match c.listDatasets project_id with
    | .error e => .error e
    | .ok dss => .ok (dss.foldl (fun acc ds => acc + fallbackDatasetBytes location ds) 0)

/-- `_sum_storage_bytes`: resolve the project default, then sum the per-region
storage figures. -/
def _sum_storage_bytes (c : Client) (regions : List String)
    (project_id : Option String) : Except PyExn Int :=
  let pid := resolveProject c project_id
  regions.foldlM (fun total region => (regionStorageBytes c pid region).map (fun b => total + b)) 0

/-- `estimate_query_bytes`: dry-run submission returning
`total_bytes_processed`; any client-side failure propagates. -/
def estimate_query_bytes (c : Client) (sql : String) (location : Option String) :
    Except PyExn Int :=
  c.dryRunEstimate sql location

/-- The `planned` figure in `check_free_tier_allowance`: 0 when
`planned_query_sql` is falsy, otherwise the dry-run estimate. -/
def plannedBytes (c : Client) (planned_query_sql planned_query_location : Option String) :
    Except PyExn Int :=
  if pyStrTruthy planned_query_sql then
    estimate_query_bytes c (planned_query_sql.getD "") planned_query_location
  else .ok 0

/-- `check_free_tier_allowance`: probe usage, estimate the pending query,
raise `RuntimeError` on a query-quota breach (message carries used TB,
planned TB and `max((limit-used)/1024**4, 0)` TB), else raise `RuntimeError`
on a storage breach (message carries used GB and limit GB), else return the
snapshot dict. -/
def check_free_tier_allowance (c : Client) (project_id : Option String)
    (regions : List String) (planned_query_sql planned_query_location : Option String)
    (query_limit_bytes storage_limit_bytes : Int) : Except PyExn Snapshot :=
  let pid := resolveProject c project_id
  match _sum_query_bytes_billed c regions with
  | .error e => .error e
  | .ok used_query =>
    match _sum_storage_bytes c regions (some pid) with
    | .error e => .error e
    | .ok used_storage =>
      match plannedBytes c planned_query_sql planned_query_location with
      | .error e => .error e
      | .ok planned =>
        if used_query + planned > query_limit_bytes then
          .error (.runtimeError (.queryQuota ((used_query : ℚ) / 1024 ^ 4)
            ((planned : ℚ) / 1024 ^ 4)
            (max ((query_limit_bytes - used_query : ℚ) / 1024 ^ 4) 0)))
        else if used_storage > storage_limit_bytes then
          .error (.runtimeError (.storageQuota ((used_storage : ℚ) / 1024 ^ 3)
            ((storage_limit_bytes : ℚ) / 1024 ^ 3)))
        else
          .ok { used_query_bytes := used_query, planned_query_bytes := planned,
                query_limit_bytes := query_limit_bytes,
                used_storage_bytes := used_storage,
                storage_limit_bytes := storage_limit_bytes }

/-- `safe_query`: run the allowance check with the query as the pending query
(`try` block); a `RuntimeError` is either swallowed into a `None` return
(`fail_soft`) or re-raised, any other exception propagates; on success submit
the real query and return a DataFrame or the job object. -/
def safe_query (c : Client) (sql : String) (location : Option String)
    (regions : List String) (project_id : Option String)
    (query_limit_bytes storage_limit_bytes : Int) (to_dataframe : Bool)
    (timeout : Option ℚ) (failSoft : Bool) : Except PyExn (Option SafeResult) :=
  match check_free_tier_allowance c project_id regions (some sql) location
      query_limit_bytes storage_limit_bytes with
  | .error (.runtimeError m) =>
    if failSoft then .ok none else .error (.runtimeError m)
  | .error (.other e) => .error (.other e)
  | .ok _ =>
    match c.realQuery sql location with
    | .error e => .error e
    | .ok job =>
      if to_dataframe then
        match c.jobResultDf job timeout with
        | .error e => .error e
        | .ok df => .ok (some (.frame df))
      else .ok (some (.job job))

/-- A client whose probes all report zero usage and whose queries succeed. -/
def zeroClient : Client where
  project := "demo-project"
  jobsBilled := fun _ => .ok 0
  storageByProject := fun _ _ => .ok 0
  listDatasets := fun _ => .ok []
  dryRunEstimate := fun _ _ => .ok 0
  realQuery := fun _ _ => .ok ⟨1⟩
  jobResultDf := fun _ _ => .ok ⟨1⟩

/-- A client reporting 10 bytes billed and 10 bytes stored in every region. -/
def busyClient : Client :=
  { zeroClient with jobsBilled := fun _ => .ok 10,
                    storageByProject := fun _ _ => .ok 10 }

/-- A client at TiB scale: 0.5 TiB already billed, and a pending query whose
dry run estimates 0.5 TiB + 1 GiB, so used + planned exceeds 1 TiB. -/
def tibClient : Client :=
  { zeroClient with jobsBilled := fun _ => .ok (2 ^ 39),
                    dryRunEstimate := fun _ _ => .ok (2 ^ 39 + 2 ^ 30) }

/-- A client whose fast-path storage query raises, with a dataset listing that
exercises every branch of the fallback loop: a matching dataset holding 5
bytes, a dataset in another location, a dataset whose `get_dataset` raises, a
matching dataset whose per-dataset query raises, and a dataset with no
location. -/
def fallbackClient : Client :=
  { zeroClient with
      storageByProject := fun _ _ => .error (.other "Forbidden"),
      listDatasets := fun _ => .ok
        [⟨.ok ⟨some "EU", .ok 5⟩⟩,
         ⟨.ok ⟨some "US", .ok 100⟩⟩,
         ⟨.error (.other "NotFound")⟩,
         ⟨.ok ⟨some "EU", .error (.other "Timeout")⟩⟩,
         ⟨.ok ⟨none, .ok 7⟩⟩] }

/-- A client whose job-history metadata query raises a non-RuntimeError. -/
def brokenClient : Client :=
  { zeroClient with jobsBilled := fun _ => .error (.other "NetworkError") }

/-! ## Shared lemmas -/

/-- Passing the client's own project explicitly is the same as the default. -/
theorem resolveProject_self (c : Client) :
    resolveProject c (some c.project) = c.project := by
  simp [resolveProject, pyStrTruthy]

/-- Three-way characterisation of `check_free_tier_allowance` once the two
usage probes and the planned-bytes estimate are fixed: query breach raises the
query `RuntimeError`, otherwise a storage breach raises the storage
`RuntimeError`, otherwise the snapshot is returned. -/
theorem check_spec (c : Client)
    (project_id planned_query_sql planned_query_location : Option String)
    (regions : List String) (ql sl uq us p : Int)
    (huq : _sum_query_bytes_billed c regions = .ok uq)
    (hus : _sum_storage_bytes c regions (some (resolveProject c project_id)) = .ok us)
    (hp : plannedBytes c planned_query_sql planned_query_location = .ok p) :
    (uq + p > ql →
      check_free_tier_allowance c project_id regions planned_query_sql
        planned_query_location ql sl =
      .error (.runtimeError (.queryQuota ((uq : ℚ) / 1024 ^ 4) ((p : ℚ) / 1024 ^ 4)
        (max ((ql - uq : ℚ) / 1024 ^ 4) 0)))) ∧
    (uq + p ≤ ql → us > sl →
      check_free_tier_allowance c project_id regions planned_query_sql
        planned_query_location ql sl =
      .error (.runtimeError (.storageQuota ((us : ℚ) / 1024 ^ 3) ((sl : ℚ) / 1024 ^ 3)))) ∧
    (uq + p ≤ ql → us ≤ sl →
      check_free_tier_allowance c project_id regions planned_query_sql
        planned_query_location ql sl = .ok ⟨uq, p, ql, us, sl⟩) := by
  refine ⟨fun hq => ?_, fun hq hs => ?_, fun hq hs => ?_⟩
  · simp [check_free_tier_allowance, huq, hus, hp, hq]
  · simp [check_free_tier_allowance, huq, hus, hp, not_lt.mpr hq, hs]
  · simp [check_free_tier_allowance, huq, hus, hp, not_lt.mpr hq, not_lt.mpr hs]

/-! ## Claim theorems -/

/-- C1: with both usage probes and the planned estimate succeeding with
non-negative values, `check_free_tier_allowance` returns normally iff
`used_query + planned <= query_limit_bytes` and
`used_storage <= storage_limit_bytes`, and the returned snapshot carries
exactly those five figures. -/
theorem check_free_tier_allowance_ok_iff (c : Client)
    (project_id planned_query_sql planned_query_location : Option String)
    (regions : List String) (ql sl uq us p : Int)
    (huq : _sum_query_bytes_billed c regions = .ok uq)
    (hus : _sum_storage_bytes c regions (some (resolveProject c project_id)) = .ok us)
    (hp : plannedBytes c planned_query_sql planned_query_location = .ok p)
    (h0 : 0 ≤ uq) (h1 : 0 ≤ us) (h2 : 0 ≤ p) :
    ((∃ s, check_free_tier_allowance c project_id regions planned_query_sql
        planned_query_location ql sl = .ok s) ↔ uq + p ≤ ql ∧ us ≤ sl) ∧
    ∀ s, check_free_tier_allowance c project_id regions planned_query_sql
        planned_query_location ql sl = .ok s → s = ⟨uq, p, ql, us, sl⟩ := by
  obtain ⟨cq, cs, cok⟩ := check_spec c project_id planned_query_sql
    planned_query_location regions ql sl uq us p huq hus hp
  have main : ∀ s, check_free_tier_allowance c project_id regions planned_query_sql
      planned_query_location ql sl = .ok s → (uq + p ≤ ql ∧ us ≤ sl) ∧ s = ⟨uq, p, ql, us, sl⟩ := by
    intro s hs
    by_cases hq : uq + p > ql
    · rw [cq hq] at hs
      exact absurd hs (by simp)
    · by_cases hst : us > sl
      · rw [cs (by omega) hst] at hs
        exact absurd hs (by simp)
      · rw [cok (by omega) (by omega)] at hs
        exact ⟨⟨by omega, by omega⟩, (by simpa using hs.symm)⟩
  refine ⟨⟨fun ⟨s, hs⟩ => (main s hs).1, fun ⟨hA, hB⟩ => ⟨_, cok hA hB⟩⟩,
    fun s hs => (main s hs).2⟩

/-- C1 witness: the zero-usage client with zero limits succeeds and returns
the all-zero snapshot. -/
theorem check_free_tier_allowance_ok_iff_witness :
    ((∃ s, check_free_tier_allowance zeroClient none ["region-eu"] none none 0 0 = .ok s)
      ↔ (0 : Int) + 0 ≤ 0 ∧ (0 : Int) ≤ 0) ∧
    ∀ s, check_free_tier_allowance zeroClient none ["region-eu"] none none 0 0 = .ok s →
      s = ⟨0, 0, 0, 0, 0⟩ :=
  check_free_tier_allowance_ok_iff zeroClient none none none ["region-eu"] 0 0 0 0 0
    rfl rfl rfl le_rfl le_rfl le_rfl

/-- C2: the checks are ordered — a query breach is reported first regardless
of the storage state, the storage breach is reported only when the query check
passed, and only one error is ever raised (the result is a single
`Except` outcome, fully determined by this three-way split). -/
theorem check_error_order (c : Client)
    (project_id planned_query_sql planned_query_location : Option String)
    (regions : List String) (ql sl uq us p : Int)
    (huq : _sum_query_bytes_billed c regions = .ok uq)
    (hus : _sum_storage_bytes c regions (some (resolveProject c project_id)) = .ok us)
    (hp : plannedBytes c planned_query_sql planned_query_location = .ok p) :
    (uq + p > ql →
      check_free_tier_allowance c project_id regions planned_query_sql
        planned_query_location ql sl =
      .error (.runtimeError (.queryQuota ((uq : ℚ) / 1024 ^ 4) ((p : ℚ) / 1024 ^ 4)
        (max ((ql - uq : ℚ) / 1024 ^ 4) 0)))) ∧
    (∀ a b : ℚ, check_free_tier_allowance c project_id regions planned_query_sql
        planned_query_location ql sl = .error (.runtimeError (.storageQuota a b)) →
      uq + p ≤ ql) ∧
    (uq + p ≤ ql → us > sl →
      check_free_tier_allowance c project_id regions planned_query_sql
        planned_query_location ql sl =
      .error (.runtimeError (.storageQuota ((us : ℚ) / 1024 ^ 3) ((sl : ℚ) / 1024 ^ 3)))) := by
  obtain ⟨cq, cs, _⟩ := check_spec c project_id planned_query_sql
    planned_query_location regions ql sl uq us p huq hus hp
  refine ⟨cq, fun a b hm => ?_, cs⟩
  by_cases hq : uq + p > ql
  · rw [cq hq] at hm
    simp only [Except.error.injEq, PyExn.runtimeError.injEq] at hm
    exact absurd hm (by simp)
  · omega

/-- C2 witness: with 10 bytes billed, 10 bytes stored and limits of 5, both
checks would fail but the query error is the one raised; with a query limit of
20 the storage error surfaces; with both limits at 20 the call succeeds. -/
theorem check_error_order_witness :
    check_free_tier_allowance busyClient none ["region-eu"] none none 5 5 =
      .error (.runtimeError (.queryQuota ((10 : ℚ) / 1024 ^ 4) ((0 : ℚ) / 1024 ^ 4)
        (max (((5 : ℚ) - 10) / 1024 ^ 4) 0))) ∧
    check_free_tier_allowance busyClient none ["region-eu"] none none 20 5 =
      .error (.runtimeError (.storageQuota ((10 : ℚ) / 1024 ^ 3) ((5 : ℚ) / 1024 ^ 3))) :=
  ⟨by
    have h := (check_error_order busyClient none none none ["region-eu"] 5 5 10 10 0
      rfl rfl rfl).1 (by norm_num)
    simpa using h,
   by
    have h := (check_error_order busyClient none none none ["region-eu"] 20 5 10 10 0
      rfl rfl rfl).2.2 (by norm_num) (by norm_num)
    simpa using h⟩

/-- C3: for any valid current instant, `_month_bounds_utc` returns a start at
the first instant of the current month and an end equal to the first instant
of the immediately following month (rolling the year over in December), with
`end > start`; this holds for every month length, 28, 29, 30 and 31 days. -/
theorem month_bounds_utc_spec (now : PyDateTime)
    (hm1 : 1 ≤ now.month) (hm2 : now.month ≤ 12) :
    (_month_bounds_utc now).1.year = now.year ∧
    (_month_bounds_utc now).1.month = now.month ∧
    (_month_bounds_utc now).1.day = 1 ∧ (_month_bounds_utc now).1.hour = 0 ∧
    (_month_bounds_utc now).1.minute = 0 ∧ (_month_bounds_utc now).1.second = 0 ∧
    (_month_bounds_utc now).1.microsecond = 0 ∧
    (_month_bounds_utc now).2 =
      (if now.month < 12 then ⟨now.year, now.month + 1, 1, 0, 0, 0, 0⟩
       else ⟨now.year + 1, 1, 1, 0, 0, 0, 0⟩ : PyDateTime) ∧
    (_month_bounds_utc now).1.key < (_month_bounds_utc now).2.key := by
  obtain ⟨y, m, d, hh, mi, se, us⟩ := now
  simp only at hm1 hm2
  interval_cases m <;>
    refine ⟨rfl, rfl, rfl, rfl, rfl, rfl, rfl, ?_, ?_⟩ <;>
    rcases hl : isLeapYear y <;>
    simp [_month_bounds_utc, addDays, addOneDay, daysInMonth, PyDateTime.key, hl] <;>
    omega

/-- C3 witness: a leap-February instant maps to [2024-02-01, 2024-03-01), and
a December instant maps to [2024-12-01, 2025-01-01). -/
theorem month_bounds_utc_spec_witness :
    (_month_bounds_utc ⟨2024, 2, 15, 10, 30, 5, 7⟩).2 =
      (if (2 : Nat) < 12 then ⟨2024, 3, 1, 0, 0, 0, 0⟩
       else ⟨2025, 1, 1, 0, 0, 0, 0⟩ : PyDateTime) ∧
    (_month_bounds_utc ⟨2024, 12, 31, 23, 59, 59, 999999⟩).2 =
      (if (12 : Nat) < 12 then ⟨2024, 13, 1, 0, 0, 0, 0⟩
       else ⟨2025, 1, 1, 0, 0, 0, 0⟩ : PyDateTime) ∧
    (_month_bounds_utc ⟨2024, 2, 15, 10, 30, 5, 7⟩).1.day = 1 :=
  ⟨(month_bounds_utc_spec ⟨2024, 2, 15, 10, 30, 5, 7⟩ (by norm_num) (by norm_num)).2.2.2.2.2.2.2.1,
   (month_bounds_utc_spec ⟨2024, 12, 31, 23, 59, 59, 999999⟩ (by norm_num) (by norm_num)).2.2.2.2.2.2.2.1,
   (month_bounds_utc_spec ⟨2024, 2, 15, 10, 30, 5, 7⟩ (by norm_num) (by norm_num)).2.2.1⟩

/-- C4 counterexample: the `region-` prefix test is case-sensitive, so the
case variant `"Region-EU"` does not normalize to the same location as
`"region-eu"` — it maps to `"REGION-EU"`, not `"EU"`. -/
theorem region_to_location_counterexample :
    _region_to_location "Region-EU" = "REGION-EU" ∧
    _region_to_location "region-eu" = "EU" ∧
    _region_to_location "Region-EU" ≠ _region_to_location "region-eu" := by
  decide

/-- C4 amended: the table `region-eu -> EU`, `region-us -> US`, `EU -> EU`,
`us -> US` holds with leading/trailing whitespace ignored; a bare region code
is case-insensitive, and after the literal lowercase prefix `region-` the
suffix is uppercased (so `region-EU -> EU`), but the prefix match itself is
case-sensitive: `Region-EU` and `REGION-eu` are left as whole-string
uppercasings. -/
theorem region_to_location_amended :
    _region_to_location "region-eu" = "EU" ∧
    _region_to_location "region-us" = "US" ∧
    _region_to_location "EU" = "EU" ∧
    _region_to_location "us" = "US" ∧
    _region_to_location "  region-eu \t" = "EU" ∧
    _region_to_location " Us " = "US" ∧
    _region_to_location "eu" = "EU" ∧
    _region_to_location "region-EU" = "EU" ∧
    _region_to_location "region-Us" = "US" ∧
    _region_to_location "Region-EU" = "REGION-EU" ∧
    _region_to_location "REGION-eu" = "REGION-EU" := by
  decide

/-- C5: an empty region list makes both usage probes return exactly 0 for
every client (so no metadata oracle is ever consulted), and the allowance
check with an empty region list, no pending query and non-negative limits
succeeds silently with an all-zero usage snapshot. -/
theorem empty_regions_zero_usage (c : Client) (pid pid2 : Option String)
    (ql sl : Int) (hql : 0 ≤ ql) (hsl : 0 ≤ sl) :
    _sum_query_bytes_billed c [] = .ok 0 ∧
    _sum_storage_bytes c [] pid2 = .ok 0 ∧
    check_free_tier_allowance c pid [] none none ql sl = .ok ⟨0, 0, ql, 0, sl⟩ := by
  refine ⟨rfl, rfl, ?_⟩
  exact (check_spec c pid none none [] ql sl 0 0 0 rfl rfl rfl).2.2 (by omega) hsl

/-- C5 witness: the zero-limit instance of the empty-region no-op. -/
theorem empty_regions_zero_usage_witness :
    _sum_query_bytes_billed zeroClient [] = .ok 0 ∧
    _sum_storage_bytes zeroClient [] none = .ok 0 ∧
    check_free_tier_allowance zeroClient none [] none none 0 0 = .ok ⟨0, 0, 0, 0, 0⟩ :=
  empty_regions_zero_usage zeroClient none none 0 0 le_rfl le_rfl

/-- C6: on a query-quota breach the raised `RuntimeError` carries a remaining
allowance equal to `max(query_limit_bytes - used_query, 0)` bytes, expressed
in the TB unit the message prints. -/
theorem query_quota_remaining_figure (c : Client)
    (project_id planned_query_sql planned_query_location : Option String)
    (regions : List String) (ql sl uq us p : Int)
    (huq : _sum_query_bytes_billed c regions = .ok uq)
    (hus : _sum_storage_bytes c regions (some (resolveProject c project_id)) = .ok us)
    (hp : plannedBytes c planned_query_sql planned_query_location = .ok p)
    (hq : uq + p > ql) :
    check_free_tier_allowance c project_id regions planned_query_sql
      planned_query_location ql sl =
    .error (.runtimeError (.queryQuota ((uq : ℚ) / 1024 ^ 4) ((p : ℚ) / 1024 ^ 4)
      (((max (ql - uq) 0 : ℤ) : ℚ) / 1024 ^ 4))) := by
  have h := (check_spec c project_id planned_query_sql planned_query_location
    regions ql sl uq us p huq hus hp).1 hq
  rw [h]
  have key : max (((ql : ℚ) - uq) / 1024 ^ 4) 0 =
      ((max (ql - uq) 0 : ℤ) : ℚ) / 1024 ^ 4 := by
    push_cast
    rw [← max_div_div_right (by positivity : (0 : ℚ) ≤ 1024 ^ 4) ((ql : ℚ) - uq) 0,
      zero_div]
  rw [key]

/-- C6 witness: 0.5 TiB used, 0.5 TiB + 1 GiB planned, 1 TiB limit raises the
query-quota error with exactly 0.5 TiB (2^39 bytes) remaining. -/
theorem query_quota_remaining_figure_witness :
    check_free_tier_allowance tibClient none ["region-eu"] (some "SELECT 1") none
      (2 ^ 40) (10 * 2 ^ 30) =
    .error (.runtimeError (.queryQuota (((2 ^ 39 : ℤ) : ℚ) / 1024 ^ 4)
      (((2 ^ 39 + 2 ^ 30 : ℤ) : ℚ) / 1024 ^ 4)
      (((max ((2 ^ 40 : ℤ) - 2 ^ 39) 0 : ℤ) : ℚ) / 1024 ^ 4))) :=
  query_quota_remaining_figure tibClient none (some "SELECT 1") none ["region-eu"]
    (2 ^ 40) (10 * 2 ^ 30) (2 ^ 39) 0 (2 ^ 39 + 2 ^ 30) rfl rfl rfl (by norm_num)

/-- C7: when the allowance check fails with a quota error, `safe_query`
returns `none` without raising under `fail_soft`, re-raises the very same
error otherwise, and in both modes never issues the real query (the result is
the same for every choice of the real-query and result-fetch oracles). -/
theorem safe_query_denied (c : Client) (sql : String) (location : Option String)
    (regions : List String) (project_id : Option String) (ql sl : Int)
    (td : Bool) (timeout : Option ℚ) (a b r : ℚ)
    (hc : check_free_tier_allowance c project_id regions (some sql) location ql sl =
        .error (.runtimeError (.queryQuota a b r)) ∨
      check_free_tier_allowance c project_id regions (some sql) location ql sl =
        .error (.runtimeError (.storageQuota a b))) :
    (∀ rq rdf, safe_query { c with realQuery := rq, jobResultDf := rdf } sql location
      regions project_id ql sl td timeout true = .ok none) ∧
    (∀ rq rdf, ∃ m, check_free_tier_allowance c project_id regions (some sql)
        location ql sl = .error (.runtimeError m) ∧
      safe_query { c with realQuery := rq, jobResultDf := rdf } sql location
        regions project_id ql sl td timeout false = .error (.runtimeError m)) := by
  rcases hc with hc | hc <;>
    exact ⟨fun rq rdf => by
        simp [safe_query, show check_free_tier_allowance
          { c with realQuery := rq, jobResultDf := rdf } project_id regions (some sql)
          location ql sl = _ from hc],
      fun rq rdf => ⟨_, hc, by
        simp [safe_query, show check_free_tier_allowance
          { c with realQuery := rq, jobResultDf := rdf } project_id regions (some sql)
          location ql sl = _ from hc]⟩⟩

/-- A concrete real-query oracle used to instantiate independence statements. -/
def demoRealQuery : String → Option String → Except PyExn Job := fun _ _ => .ok ⟨42⟩

/-- A concrete result-fetch oracle used to instantiate independence statements. -/
def demoResultDf : Job → Option ℚ → Except PyExn DataFrame := fun _ _ => .ok ⟨42⟩

/-- C7 witness: over quota, `fail_soft = true` yields `none`, `fail_soft =
false` re-raises the check's error, with a real-query oracle that would
succeed if it were (wrongly) consulted. -/
theorem safe_query_denied_witness :
    safe_query { busyClient with realQuery := demoRealQuery, jobResultDf := demoResultDf }
      "SELECT 1" none ["region-eu"] none 5 5 true none true = .ok none ∧
    ∃ m, check_free_tier_allowance busyClient none ["region-eu"] (some "SELECT 1")
        none 5 5 = .error (.runtimeError m) ∧
      safe_query { busyClient with realQuery := demoRealQuery, jobResultDf := demoResultDf }
        "SELECT 1" none ["region-eu"] none 5 5 true none false = .error (.runtimeError m) := by
  have hcheck := (check_spec busyClient none (some "SELECT 1") none ["region-eu"]
    5 5 10 10 0 rfl rfl rfl).1 (by norm_num)
  have h := safe_query_denied busyClient "SELECT 1" none ["region-eu"] none 5 5
    true none _ _ _ (Or.inl hcheck)
  exact ⟨h.1 demoRealQuery demoResultDf, h.2 demoRealQuery demoResultDf⟩

/-- C8: per region, a fast-path success is returned as-is without consulting
the dataset listing; a fast-path failure switches to the per-dataset fallback,
which never raises once the listing is obtained and whose per-dataset
contribution is the queried byte count exactly when `get_dataset` succeeds,
the dataset's location matches the region's canonical location and the
per-dataset query succeeds — any per-dataset exception, and any non-matching
dataset, contributes nothing (an under-count, not an error). -/
theorem storage_fallback_behavior (c : Client) (pid r : String) (b bb : Int)
    (e : PyExn) (dss : List DatasetListing) (ds : DatasetListing)
    (ref : DatasetRef) :
    (c.storageByProject r pid = .ok b →
      ∀ lds, regionStorageBytes { c with listDatasets := lds } pid r = .ok b) ∧
    (c.storageByProject r pid = .error e → c.listDatasets pid = .ok dss →
      regionStorageBytes c pid r =
        .ok (dss.foldl (fun acc d => acc + fallbackDatasetBytes (_region_to_location r) d) 0)) ∧
    (ds.getDataset = .error e → fallbackDatasetBytes (_region_to_location r) ds = 0) ∧
    (ds.getDataset = .ok ref → pyUpper (ref.location.getD "") ≠ _region_to_location r →
      fallbackDatasetBytes (_region_to_location r) ds = 0) ∧
    (ds.getDataset = .ok ref → pyUpper (ref.location.getD "") = _region_to_location r →
      ref.tableStorageBytes = .error e →
      fallbackDatasetBytes (_region_to_location r) ds = 0) ∧
    (ds.getDataset = .ok ref → pyUpper (ref.location.getD "") = _region_to_location r →
      ref.tableStorageBytes = .ok bb →
      fallbackDatasetBytes (_region_to_location r) ds = bb) := by
  refine ⟨fun hfast lds => ?_, fun hfast hlist => ?_, fun h => ?_,
    fun h hl => ?_, fun h hl ht => ?_, fun h hl ht => ?_⟩
  · simp [regionStorageBytes, hfast]
  · simp [regionStorageBytes, hfast, hlist]
  · simp [fallbackDatasetBytes, h]
  · simp [fallbackDatasetBytes, h, hl]
  · simp [fallbackDatasetBytes, h, hl, ht]
  · simp [fallbackDatasetBytes, h, hl, ht]

/-- C8 witness: with the fast path down, the fallback over five datasets
(matching 5-byte dataset, wrong-location dataset, raising `get_dataset`,
matching dataset with a raising query, location-less dataset) totals exactly
5 bytes, and the two raising datasets each contribute 0. -/
theorem storage_fallback_behavior_witness :
    regionStorageBytes fallbackClient "demo-project" "region-eu" = .ok 5 ∧
    fallbackDatasetBytes (_region_to_location "region-eu") ⟨.error (.other "NotFound")⟩ = 0 ∧
    fallbackDatasetBytes (_region_to_location "region-eu")
      ⟨.ok ⟨some "EU", .error (.other "Timeout")⟩⟩ = 0 := by
  refine ⟨?_, ?_, ?_⟩
  · exact ((storage_fallback_behavior fallbackClient "demo-project" "region-eu" 0 0
      (.other "Forbidden")
      [⟨.ok ⟨some "EU", .ok 5⟩⟩, ⟨.ok ⟨some "US", .ok 100⟩⟩, ⟨.error (.other "NotFound")⟩,
       ⟨.ok ⟨some "EU", .error (.other "Timeout")⟩⟩, ⟨.ok ⟨none, .ok 7⟩⟩]
      ⟨.error (.other "NotFound")⟩ ⟨some "EU", .ok 5⟩).2.1 rfl rfl).trans rfl
  · exact (storage_fallback_behavior fallbackClient "demo-project" "region-eu" 0 0
      (.other "NotFound") [] ⟨.error (.other "NotFound")⟩ ⟨some "EU", .ok 5⟩).2.2.1 rfl
  · exact (storage_fallback_behavior fallbackClient "demo-project" "region-eu" 0 0
      (.other "Timeout") [] ⟨.ok ⟨some "EU", .error (.other "Timeout")⟩⟩
      ⟨some "EU", .error (.other "Timeout")⟩).2.2.2.2.1 rfl rfl rfl

/-- C9: both quota breaches raise the single `RuntimeError` type; under
`fail_soft` `safe_query` converts any `RuntimeError` escaping the check phase
into a `none` return, while an exception of any other type propagates
unchanged whatever `fail_soft` is. -/
theorem runtime_error_discipline (c : Client) (sql : String)
    (location : Option String) (regions : List String)
    (project_id : Option String) (ql sl : Int) (td : Bool) (timeout : Option ℚ) :
    (∀ uq us p : Int, _sum_query_bytes_billed c regions = .ok uq →
      _sum_storage_bytes c regions (some (resolveProject c project_id)) = .ok us →
      plannedBytes c (some sql) location = .ok p →
      ((uq + p > ql → ∃ m, check_free_tier_allowance c project_id regions (some sql)
          location ql sl = .error (.runtimeError m)) ∧
       (uq + p ≤ ql → us > sl → ∃ m, check_free_tier_allowance c project_id regions
          (some sql) location ql sl = .error (.runtimeError m)))) ∧
    (∀ m, check_free_tier_allowance c project_id regions (some sql) location ql sl =
        .error (.runtimeError m) →
      safe_query c sql location regions project_id ql sl td timeout true = .ok none) ∧
    (∀ name fs, check_free_tier_allowance c project_id regions (some sql) location ql sl =
        .error (.other name) →
      safe_query c sql location regions project_id ql sl td timeout fs =
        .error (.other name)) := by
  refine ⟨fun uq us p huq hus hp => ?_, fun m hm => ?_, fun name fs hn => ?_⟩
  · obtain ⟨cq, cs, _⟩ := check_spec c project_id (some sql) location regions
      ql sl uq us p huq hus hp
    exact ⟨fun hq => ⟨_, cq hq⟩, fun hq hs => ⟨_, cs hq hs⟩⟩
  · simp [safe_query, hm]
  · simp [safe_query, hn]

/-- C9 witness: the over-quota client's check error is a `RuntimeError` that
`fail_soft` turns into `none`, while a client whose metadata query raises a
non-RuntimeError propagates it through `safe_query` even with `fail_soft`. -/
theorem runtime_error_discipline_witness :
    (∃ m, check_free_tier_allowance busyClient none ["region-eu"] (some "SELECT 1")
      none 5 5 = .error (.runtimeError m)) ∧
    safe_query busyClient "SELECT 1" none ["region-eu"] none 5 5 true none true = .ok none ∧
    safe_query brokenClient "SELECT 1" none ["region-eu"] none 5 5 true none true =
      .error (.other "NetworkError") := by
  have hbusy := runtime_error_discipline busyClient "SELECT 1" none ["region-eu"]
    none 5 5 true none
  have hbroken := runtime_error_discipline brokenClient "SELECT 1" none ["region-eu"]
    none 5 5 true none
  obtain ⟨m, hm⟩ := ((hbusy.1 10 10 0 rfl rfl rfl).1 (by norm_num))
  exact ⟨⟨m, hm⟩, hbusy.2.1 m hm, hbroken.2.2 "NetworkError" true rfl⟩

/-- C10: a falsy (`None` or empty) `planned_query_sql` makes the planned
figure 0 and the estimator oracle irrelevant to the outcome, and a falsy
`project_id` makes the call behave exactly as if the client's default project
had been passed. -/
theorem falsy_defaults (c : Client) (pq pid : Option String)
    (loc : Option String) (regions : List String) (ql sl : Int)
    (hpq : pq = none ∨ pq = some "") (hpid : pid = none ∨ pid = some "") :
    (∀ est, check_free_tier_allowance { c with dryRunEstimate := est } pid regions pq loc ql sl =
      check_free_tier_allowance c pid regions pq loc ql sl) ∧
    (∀ s, check_free_tier_allowance c pid regions pq loc ql sl = .ok s →
      s.planned_query_bytes = 0) ∧
    (check_free_tier_allowance c pid regions pq loc ql sl =
      check_free_tier_allowance c (some c.project) regions pq loc ql sl) := by
  have hres : resolveProject c pid = c.project := by
    rcases hpid with h | h <;> subst h <;> simp [resolveProject, pyStrTruthy]
  have hpl : ∀ c' : Client, plannedBytes c' pq loc = .ok 0 := by
    intro c'
    rcases hpq with h | h <;> subst h <;> simp [plannedBytes, pyStrTruthy]
  refine ⟨fun est => ?_, fun s h => ?_, ?_⟩
  · have h1 : _sum_query_bytes_billed { c with dryRunEstimate := est } regions =
      _sum_query_bytes_billed c regions := rfl
    have h2 : ∀ pr, _sum_storage_bytes { c with dryRunEstimate := est } regions pr =
      _sum_storage_bytes c regions pr := fun _ => rfl
    have h3 : resolveProject { c with dryRunEstimate := est } pid = resolveProject c pid := rfl
    simp only [check_free_tier_allowance, hpl, h1, h2, h3]
  · simp only [check_free_tier_allowance, hpl, hres] at h
    split at h
    · exact absurd h (by simp)
    · split at h
      · exact absurd h (by simp)
      · split at h
        · exact absurd h (by simp)
        · split at h
          · exact absurd h (by simp)
          · simp only [Except.ok.injEq] at h
            subst h
            rfl
  · simp only [check_free_tier_allowance, hres, resolveProject_self]

/-- An estimator oracle that always raises, to instantiate the irrelevance of
the estimator under a falsy pending query. -/
def failingEstimator : String → Option String → Except PyExn Int :=
  fun _ _ => .error (.other "BadRequest")

/-- C10 witness: with `planned_query_sql = some ""` and `project_id = none`,
swapping in an always-raising estimator does not change the outcome, the
snapshot's planned figure is 0, and passing the default project explicitly
matches passing a falsy project id. -/
theorem falsy_defaults_witness :
    (check_free_tier_allowance { zeroClient with dryRunEstimate := failingEstimator }
      none ["region-eu"] (some "") none 5 5 =
      check_free_tier_allowance zeroClient none ["region-eu"] (some "") none 5 5) ∧
    (∀ s, check_free_tier_allowance zeroClient none ["region-eu"] (some "") none 5 5 =
      .ok s → s.planned_query_bytes = 0) ∧
    (check_free_tier_allowance zeroClient none ["region-eu"] (some "") none 5 5 =
      check_free_tier_allowance zeroClient (some "demo-project") ["region-eu"]
        (some "") none 5 5) := by
  have h := falsy_defaults zeroClient (some "") none none ["region-eu"] 5 5
    (Or.inr rfl) (Or.inl rfl)
  exact ⟨h.1 failingEstimator, h.2.1, h.2.2⟩
